import Mathlib

/-!
# Verification of the skinview3d animation core

A shallow embedding of the animation core of the skinview3d repository:
the easing functions (`src/utils.ts`), the `PlayerAnimation` base class and
its concrete variants (`src/animation.ts`), and the compiled revision of the
waving animation (`libs/animation.js`).  JavaScript numbers are modelled as
real numbers; mutation of the player object and of the animation instance is
modelled by explicit state passing.
-/

noncomputable section

namespace Skinview

/-! ## Easing functions (src/utils.ts) -/

/-- `easeInOutQuad(t) = t < 0.5 ? 2*t*t : 1 - Math.pow(-2*t+2, 2)/2` -/
def easeInOutQuad (t : ℝ) : ℝ :=
  if t < 0.5 then 2 * t * t else 1 - (-2 * t + 2) ^ 2 / 2

/-- `easeIn(t) = t * t` -/
def easeIn (t : ℝ) : ℝ := t * t

/-- `easeOut(t) = 1 - (1 - t) * (1 - t)` -/
def easeOut (t : ℝ) : ℝ := 1 - (1 - t) * (1 - t)

/-! ## The player object (the external target model)

The animation core reads and writes rotations, positions and visibility
flags on the caller-supplied player object.  Only the fields the core
touches are modelled. -/

/-- A three-axis numeric record, used for both rotations and positions. -/
structure Vec3 where
  x : ℝ := 0
  y : ℝ := 0
  z : ℝ := 0

/-- A rigid segment with independent rotation and position. -/
structure Segment where
  rotation : Vec3 := {}
  position : Vec3 := {}

/-- The `skin` grouping of the player model. -/
structure Skin where
  head : Segment := {}
  torso : Segment := {}
  leftArm : Segment := {}
  rightArm : Segment := {}
  leftLeg : Segment := {}
  rightLeg : Segment := {}

/-- The cape attachment. -/
structure Cape where
  rotation : Vec3 := {}
  visible : Bool := true

/-- The two-wing elytra attachment. -/
structure Elytra where
  leftWing : Segment := {}
  rightWing : Segment := {}
  visible : Bool := true

/-- The target player object consumed and mutated by `update`. -/
structure PlayerObject where
  skin : Skin := {}
  cape : Cape := {}
  elytra : Elytra := {}
  rotation : Vec3 := {}
  backEquipment : String := "cape"

/-- Modelled from the spec: `elytra.updateRightWing()` is provided by the
target model (model.ts, which is outside the animation core); it mirrors the
left wing's pose onto the right wing.  The exact mirror transform lives in
model.ts; following the spec's description we copy the left wing with the z
rotation negated. -/
def Elytra.updateRightWing (e : Elytra) : Elytra :=
  { e with rightWing :=
      { e.leftWing with rotation := { e.leftWing.rotation with z := -e.leftWing.rotation.z } } }

/-- Set a segment's `rotation.x` (JS: `seg.rotation.x = v`). -/
def Segment.withRotX (s : Segment) (v : ℝ) : Segment :=
  { s with rotation := { s.rotation with x := v } }

/-- Set a segment's `rotation.z` (JS: `seg.rotation.z = v`). -/
def Segment.withRotZ (s : Segment) (v : ℝ) : Segment :=
  { s with rotation := { s.rotation with z := v } }

/-- Set a segment's `position.x` (JS: `seg.position.x = v`). -/
def Segment.withPosX (s : Segment) (v : ℝ) : Segment :=
  { s with position := { s.position with x := v } }

/-! ## The animation base abstraction (src/animation.ts, PlayerAnimation) -/

/-- The state of a `PlayerAnimation` instance.  `internal` carries the
variant-specific fields (e.g. the walking multiplier `m`, the waving
counters `w` and `t`); stateless variants use `Unit`. -/
structure PlayerAnimation (σ : Type) where
  speed : ℝ := 1.0
  paused : Bool := false
  progress : ℝ := 0
  internal : σ

/-- The type of a variant's pose-computation hook `animate(player, delta)`:
it reads the animation instance (`this`, in particular `this.progress` and
the internal fields) and returns the mutated player together with the new
internal state. -/
def AnimateHook (σ : Type) : Type :=
  PlayerAnimation σ → PlayerObject → ℝ → PlayerObject × σ

/-- `update(player, deltaTime)`: if `paused`, do nothing; otherwise compute
`delta = deltaTime * speed`, call `animate(player, delta)` (which observes
the pre-increment `progress`), then `progress += delta`. -/
def PlayerAnimation.update {σ : Type} (animate : AnimateHook σ)
    (a : PlayerAnimation σ) (player : PlayerObject) (deltaTime : ℝ) :
    PlayerAnimation σ × PlayerObject :=
  if a.paused then (a, player)
  else
    let delta := deltaTime * a.speed
    let r := animate a player delta
    ({ a with progress := a.progress + delta, internal := r.2 }, r.1)

/-! ## IdleAnimation -/

/-- The idle variant's pose hook. -/
def IdleAnimation.animate (a : PlayerAnimation Unit) (player : PlayerObject)
    (_delta : ℝ) : PlayerObject × Unit :=
  -- Multiply by animation's natural speed
  let t := a.progress * 2
  -- Arm swing
  let basicArmRotationZ := Real.pi * 0.02
  ({ player with skin :=
      { player.skin with
        leftArm := player.skin.leftArm.withRotZ (Real.cos t * 0.03 + basicArmRotationZ),
        rightArm := player.skin.rightArm.withRotZ
          (Real.cos (t + Real.pi) * 0.03 - basicArmRotationZ) } }, ())

/-! ## WavingAnimation (the draft in src/animation.ts)

The draft waving variant is stateful: `this.w` counts completed waves and
`this.t` is the internal cycle variable, advanced by `0.016` per call and
reset to `0` (incrementing `w`) once the value captured at the top of the
call has reached `2`.  At construction `this.t = this.progress * 1.8 = 0`. -/

structure WavingState where
  w : ℕ := 0
  t : ℝ := 0

/-- The pose written while `w < 5` and the captured `t ≤ 1` (raise phase). -/
def wavingRaisePose (player : PlayerObject) (l t : ℝ) : PlayerObject :=
  { player with skin :=
      { player.skin with
        head := player.skin.head.withRotZ (easeOut t * l / 18),
        torso := ((player.skin.torso.withPosX (easeOut t * -l / 1.5)).withRotZ
          (easeOut t * l / 20)),
        rightArm := player.skin.rightArm.withRotZ (easeOut t * l),
        leftArm := player.skin.leftArm.withRotZ (easeOut t * -l / 8),
        rightLeg := player.skin.rightLeg.withRotZ (easeOut t * l / 10) } }

/-- The pose written while `w < 5` and the captured `1 < t ≤ 2` (lower phase). -/
def wavingLowerPose (player : PlayerObject) (l t : ℝ) : PlayerObject :=
  { player with skin :=
      { player.skin with
        head := player.skin.head.withRotZ (l / 18 - easeInOutQuad (t - 1) * l / 18),
        torso := ((player.skin.torso.withPosX
          (-l / 1.5 - easeInOutQuad (t - 1) * -l / 1.5)).withRotZ
          (l / 20 - easeInOutQuad (t - 1) * l / 20)),
        rightArm := player.skin.rightArm.withRotZ (l - easeOut (t - 1) * l),
        leftArm := player.skin.leftArm.withRotZ (-l / 8 - easeOut (t - 1) * -l / 8),
        rightLeg := player.skin.rightLeg.withRotZ (l / 10 - easeInOutQuad (t - 1) * l / 10) } }

/-- The draft waving variant's pose hook.  In the `w >= 5` branch the source
reads `if (player.backEquipment = 'cape')`: a JavaScript *assignment*, whose
value is the non-empty (hence truthy) string `'cape'`, so the branch always
assigns `'cape'` to `backEquipment` and always takes the cape-visible arm;
the embedding encodes exactly that behaviour. -/
def WavingAnimation.animate (a : PlayerAnimation WavingState) (player : PlayerObject)
    (_delta : ℝ) : PlayerObject × WavingState :=
  let l := Real.pi / -1.15
  let t := a.internal.t
  let player :=
    if a.internal.w < 5 then
      let player :=
        { player with cape := { player.cape with visible := false },
                      elytra := { player.elytra with visible := false } }
      if t ≤ 1 then wavingRaisePose player l t
      else if t ≤ 2 then wavingLowerPose player l t
      else { player with skin :=
              { player.skin with rightArm := player.skin.rightArm.withRotZ 0 } }
    else
      { player with
        skin := { player.skin with rightArm := player.skin.rightArm.withRotZ 0 },
        backEquipment := "cape",
        cape := { player.cape with visible := true } }
  -- this.t += 0.016; if (t >= 2) { this.w++; this.t = 0 }
  if t ≥ 2 then (player, { w := a.internal.w + 1, t := 0 })
  else (player, { w := a.internal.w, t := a.internal.t + 0.016 })

/-! ## WalkingAnimation -/

/-- The walking variant's internal field: the `/** multiplier */ m`. -/
structure WalkingState where
  m : ℝ := 0.7

/-- The walking variant's pose hook. -/
def WalkingAnimation.animate (a : PlayerAnimation WalkingState) (player : PlayerObject)
    (_delta : ℝ) : PlayerObject × WalkingState :=
  -- Multiply by animation's natural speed
  let t := a.progress * 8
  let multiplier := a.internal.m
  let basicCapeRotationX := Real.pi * 0.15
  ({ player with
      skin := { player.skin with
        -- Leg swing
        leftLeg := player.skin.leftLeg.withRotX (Real.sin t * multiplier),
        rightLeg := player.skin.rightLeg.withRotX (Real.sin (t + Real.pi) * multiplier),
        -- Arm swing
        leftArm := player.skin.leftArm.withRotX (Real.sin (t + Real.pi) * multiplier),
        rightArm := player.skin.rightArm.withRotX (Real.sin t * multiplier) },
      -- Always add an angle for cape around the x axis
      cape := { player.cape with rotation :=
        { player.cape.rotation with x := Real.sin t * 0.05 + basicCapeRotationX } } },
   a.internal)

/-! ## RunningAnimation -/

/-- The running variant's pose hook. -/
def RunningAnimation.animate (a : PlayerAnimation Unit) (player : PlayerObject)
    (_delta : ℝ) : PlayerObject × Unit :=
  -- Multiply by animation's natural speed
  let t := a.progress * 11
  let basicCapeRotationX := Real.pi * 0.25
  ({ player with
      skin := { player.skin with
        leftLeg := player.skin.leftLeg.withRotX (Real.sin t * 1.3),
        rightLeg := player.skin.rightLeg.withRotX (Real.sin (t + Real.pi) * 1.3),
        leftArm := player.skin.leftArm.withRotX (Real.sin (t + Real.pi) * 1.3),
        rightArm := player.skin.rightArm.withRotX (Real.sin t * 1.3) },
      cape := { player.cape with rotation :=
        { player.cape.rotation with x := Real.sin (t * 0.8) * 0.2 + basicCapeRotationX } } },
   ())

/-! ## FlyingAnimation -/

/-- `clamp(num, min, max) = num <= min ? min : num >= max ? max : num` -/
def clamp (num min max : ℝ) : ℝ :=
  if num ≤ min then min else if num ≥ max then max else num

/-- `t = this.progress > 0 ? this.progress * 20 : 0` -/
def flyingT (progress : ℝ) : ℝ :=
  if progress > 0 then progress * 20 else 0

/-- `startProgress = clamp(t * t / 100, 0, 1)` -/
def flyingStartProgress (progress : ℝ) : ℝ :=
  clamp (flyingT progress * flyingT progress / 100) 0 1

/-- The flying variant's pose hook. -/
def FlyingAnimation.animate (a : PlayerAnimation Unit) (player : PlayerObject)
    (_delta : ℝ) : PlayerObject × Unit :=
  -- Body rotation finishes in 0.5s; elytra expansion finishes in 3.3s
  let t := flyingT a.progress
  let startProgress := flyingStartProgress a.progress
  let player := { player with rotation :=
    { player.rotation with x := startProgress * Real.pi / 2 } }
  let player := { player with skin :=
    { player.skin with head := (player.skin.head.withRotX
        (if startProgress > 0.5 then Real.pi / 4 - player.rotation.x else 0)) } }
  let basicArmRotationZ := Real.pi * 0.25 * startProgress
  let player := { player with skin :=
    { player.skin with
      leftArm := player.skin.leftArm.withRotZ basicArmRotationZ,
      rightArm := player.skin.rightArm.withRotZ (-basicArmRotationZ) } }
  let elytraRotationX : ℝ := 0.34906584
  let elytraRotationZ : ℝ := Real.pi / 2
  let interpolation : ℝ := (0.9 : ℝ) ^ t
  let player := { player with elytra :=
    { player.elytra with leftWing :=
        ((player.elytra.leftWing.withRotX
          (elytraRotationX + interpolation * (0.2617994 - elytraRotationX))).withRotZ
          (elytraRotationZ + interpolation * (0.2617994 - elytraRotationZ))) } }
  ({ player with elytra := player.elytra.updateRightWing }, ())

/-! ## WavingAnimation, the later revision (libs/animation.js)

The compiled revision is stateless: everything is derived from
`t = this.progress * 12` with `waveCount = 4`. -/

/-- Truncation of a real toward zero, as JavaScript's number-to-integer
truncation used by the `%` operator. -/
def rtrunc (x : ℝ) : ℤ :=
  if 0 ≤ x then ⌊x⌋ else ⌈x⌉

/-- The JavaScript remainder operator on finite numbers:
`a % b = a - b * trunc(a / b)` (the result has the sign of the dividend). -/
def jsMod (a b : ℝ) : ℝ :=
  a - b * (rtrunc (a / b) : ℝ)

/-- The final assignment block of the revised waving hook:
```
player.skin.rightLeg.rotation.z = -rightLegRotationZ;
player.skin.leftArm.rotation.z = leftArmRotationZ;
player.skin.head.rotation.z = -headRotationZ;
player.skin.torso.rotation.z = -torsoRotationZ;
player.skin.torso.position.x = torsoPositionX;
player.skin.rightArm.rotation.z = -rightArmRotationZ;
``` -/
def wavingRevApply (player : PlayerObject)
    (rightLegRotationZ leftArmRotationZ headRotationZ torsoRotationZ
     torsoPositionX rightArmRotationZ : ℝ) : PlayerObject :=
  { player with skin :=
      { player.skin with
        rightLeg := player.skin.rightLeg.withRotZ (-rightLegRotationZ),
        leftArm := player.skin.leftArm.withRotZ leftArmRotationZ,
        head := player.skin.head.withRotZ (-headRotationZ),
        torso := ((player.skin.torso.withRotZ (-torsoRotationZ)).withPosX torsoPositionX),
        rightArm := player.skin.rightArm.withRotZ (-rightArmRotationZ) } }

/-- The revised waving variant's pose hook (libs/animation.js). -/
def WavingAnimationRev.animate (a : PlayerAnimation Unit) (player : PlayerObject)
    (_delta : ℝ) : PlayerObject × Unit :=
  let t := a.progress * 12
  let waveCount : ℝ := 4
  let easedT := easeInOutQuad |(jsMod (t * 1.2) (2 * waveCount) - waveCount) / waveCount|
  let rightArmRotationZ := jsMod (Real.pi / 1.2 * (1 - easedT)) (Real.pi * 4)
  -- if (t >= waveCount * 5) rightArmRotationZ = 0
  let rightArmRotationZ := if t ≥ waveCount * 5 then 0 else rightArmRotationZ
  if t < waveCount * 4 then
    let player :=
      { player with cape := { player.cape with visible := false },
                    elytra := { player.elytra with visible := false } }
    let rightLegRotationZ := Real.pi / 8 * easeOut (min 1 (t / 1.1 / (waveCount * 2)))
    let leftArmRotationZ := Real.pi / 12 * easeOut (min 1 (t * 1.2 / (waveCount * 2)))
    let headRotationZ := Real.pi / 18 * easeOut (min 1 (t / 1.3 / (waveCount * 2)))
    let torsoPositionX := Real.pi / 1.2 * easeOut (min 1 (t / 1.2 / (waveCount * 2)))
    let torsoRotationZ := Real.pi / 15 * easeOut (min 1 (t / 1.2 / (waveCount * 2)))
    (wavingRevApply player rightLegRotationZ leftArmRotationZ headRotationZ
      torsoRotationZ torsoPositionX rightArmRotationZ, ())
  else
    let ta := t - waveCount * 4
    let player := { player with cape := { player.cape with visible := true } }
    let rightLegRotationZ := Real.pi / 8 * (1 - easeOut (min 1 (ta * 2 / (waveCount * 2))))
    let leftArmRotationZ := Real.pi / 12 * (1 - easeOut (min 1 (ta * 2 / (waveCount * 2))))
    let headRotationZ := Real.pi / 18 * (1 - easeInOutQuad (min 1 (ta * 2 / (waveCount * 2))))
    let torsoPositionX := Real.pi / 1.2 * (1 - easeInOutQuad (min 1 (ta * 2 / (waveCount * 2))))
    let torsoRotationZ := Real.pi / 15 * (1 - easeInOutQuad (min 1 (ta * 2 / (waveCount * 2))))
    (wavingRevApply player rightLegRotationZ leftArmRotationZ headRotationZ
      torsoRotationZ torsoPositionX rightArmRotationZ, ())

/-- A player object with every modelled field at its default value, used as
a concrete target in witnesses. -/
def basePlayer : PlayerObject := {}

/-! ## Theorems -/

/-- C9: for every `t` in the closed interval `[0,1]`,
`easeIn t ≤ t` and `t ≤ easeOut t`, i.e. `t² ≤ t ≤ 1 − (1−t)²`. -/
theorem easeIn_le_le_easeOut (t : ℝ) (h0 : 0 ≤ t) (h1 : t ≤ 1) :
    easeIn t ≤ t ∧ t ≤ easeOut t := by
  unfold easeIn easeOut
  constructor
  · nlinarith
  · nlinarith

theorem easeIn_le_le_easeOut_witness :
    (0 : ℝ) ≤ 0.5 ∧ (0.5 : ℝ) ≤ 1 ∧ easeIn 0.5 ≤ 0.5 ∧ (0.5 : ℝ) ≤ easeOut 0.5 := by
  refine ⟨by norm_num, by norm_num, ?_⟩
  exact easeIn_le_le_easeOut 0.5 (by norm_num) (by norm_num)

/-- C10: `easeInOutQuad` is continuous at every real `t` (in particular at
the piecewise boundary `t = 0.5`), and `easeInOutQuad 0 = 0`,
`easeInOutQuad 0.5 = 0.5`, `easeInOutQuad 1 = 1`. -/
theorem easeInOutQuad_continuous_and_anchors :
    Continuous easeInOutQuad ∧
      easeInOutQuad 0 = 0 ∧ easeInOutQuad 0.5 = 0.5 ∧ easeInOutQuad 1 = 1 := by
  refine ⟨?_, ?_, ?_, ?_⟩
  · have h : easeInOutQuad = fun t : ℝ =>
        if (0.5 : ℝ) ≤ t then 1 - (-2 * t + 2) ^ 2 / 2 else 2 * t * t := by
      funext t
      unfold easeInOutQuad
      rcases lt_or_le t 0.5 with ht | ht
      · rw [if_pos ht, if_neg (not_le.mpr ht)]
      · rw [if_neg (not_lt.mpr ht), if_pos ht]
    rw [h]
    refine Continuous.if_le (by continuity) (by continuity)
      continuous_const continuous_id (fun x hx => ?_)
    rw [← hx]
    norm_num
  · unfold easeInOutQuad
    rw [if_pos (by norm_num)]
    norm_num
  · unfold easeInOutQuad
    rw [if_neg (by norm_num)]
    norm_num
  · unfold easeInOutQuad
    rw [if_neg (by norm_num)]
    norm_num

/-- C1: with `paused = false`, `update` returns the player produced by the
pose hook applied to the pre-call state (so the hook observes the
pre-increment `progress`), and only afterwards stores
`progress + deltaTime * speed`; in particular an Idle animation with
`speed = 2` and `progress = 0` has `progress = 1` after `update(target, 0.5)`. -/
theorem update_order_pre_increment {σ : Type} (animate : AnimateHook σ)
    (a : PlayerAnimation σ) (player : PlayerObject) (deltaTime : ℝ)
    (h : a.paused = false) :
    (PlayerAnimation.update animate a player deltaTime).2
        = (animate a player (deltaTime * a.speed)).1 ∧
    (PlayerAnimation.update animate a player deltaTime).1.progress
        = a.progress + deltaTime * a.speed ∧
    ∀ target : PlayerObject,
      (PlayerAnimation.update IdleAnimation.animate
          { speed := 2, paused := false, progress := 0, internal := () }
          target 0.5).1.progress = 1 := by
  unfold PlayerAnimation.update
  rw [h]
  refine ⟨rfl, rfl, fun target => ?_⟩
  norm_num

theorem update_order_pre_increment_witness :
    ({ speed := 2, paused := false, progress := 0, internal := () }
        : PlayerAnimation Unit).paused = false ∧
    (PlayerAnimation.update IdleAnimation.animate
        { speed := 2, paused := false, progress := 0, internal := () }
        basePlayer 0.5).1.progress = 1 :=
  ⟨rfl,
   (update_order_pre_increment IdleAnimation.animate
      { speed := 2, paused := false, progress := 0, internal := () }
      basePlayer 0.5 rfl).2.2 basePlayer⟩

/-- C2: with `paused = true`, `update` returns the animation state and the
player both unchanged, for every hook and every `deltaTime`; since the
result does not depend on the hook at all, the hook is not invoked. -/
theorem update_paused_no_effect {σ : Type} (animate : AnimateHook σ)
    (a : PlayerAnimation σ) (player : PlayerObject) (deltaTime : ℝ)
    (h : a.paused = true) :
    PlayerAnimation.update animate a player deltaTime = (a, player) := by
  unfold PlayerAnimation.update
  rw [h, if_pos rfl]

theorem update_paused_no_effect_witness :
    ({ speed := 1, paused := true, progress := 0, internal := () }
        : PlayerAnimation Unit).paused = true ∧
    PlayerAnimation.update IdleAnimation.animate
        { speed := 1, paused := true, progress := 0, internal := () } basePlayer 42
      = ({ speed := 1, paused := true, progress := 0, internal := () }, basePlayer) :=
  ⟨rfl,
   update_paused_no_effect IdleAnimation.animate
     { speed := 1, paused := true, progress := 0, internal := () } basePlayer 42 rfl⟩

/-- C3, counterexample: an unpaused Idle animation with `speed = 1 ≥ 0` and
`progress = 0`, updated with `deltaTime = -1`, ends with `progress = -1`,
strictly below its previous progress — the claim fails for negative
`deltaTime`. -/
theorem update_progress_can_decrease :
    ({ speed := 1, paused := false, progress := 0, internal := () }
        : PlayerAnimation Unit).paused = false ∧
    (0 : ℝ) ≤ ({ speed := 1, paused := false, progress := 0, internal := () }
        : PlayerAnimation Unit).speed ∧
    (PlayerAnimation.update IdleAnimation.animate
        { speed := 1, paused := false, progress := 0, internal := () }
        basePlayer (-1)).1.progress
      < ({ speed := 1, paused := false, progress := 0, internal := () }
        : PlayerAnimation Unit).progress := by
  refine ⟨rfl, by norm_num, ?_⟩
  unfold PlayerAnimation.update
  norm_num

/-- C3, amended: with `paused = false`, `speed ≥ 0` *and `deltaTime ≥ 0`*,
`update` never decreases `progress`. -/
theorem update_progress_monotone {σ : Type} (animate : AnimateHook σ)
    (a : PlayerAnimation σ) (player : PlayerObject) (deltaTime : ℝ)
    (hp : a.paused = false) (hs : 0 ≤ a.speed) (hd : 0 ≤ deltaTime) :
    a.progress ≤ (PlayerAnimation.update animate a player deltaTime).1.progress := by
  unfold PlayerAnimation.update
  rw [hp]
  simp only [Bool.false_eq_true, if_false]
  nlinarith [mul_nonneg hd hs]

theorem update_progress_monotone_witness :
    ({ speed := 1, paused := false, progress := 0, internal := () }
        : PlayerAnimation Unit).paused = false ∧
    (0 : ℝ) ≤ 1 ∧ (0 : ℝ) ≤ 2 ∧
    ({ speed := 1, paused := false, progress := 0, internal := () }
        : PlayerAnimation Unit).progress
      ≤ (PlayerAnimation.update IdleAnimation.animate
          { speed := 1, paused := false, progress := 0, internal := () }
          basePlayer 2).1.progress := by
  refine ⟨rfl, by norm_num, by norm_num, ?_⟩
  exact update_progress_monotone IdleAnimation.animate
    { speed := 1, paused := false, progress := 0, internal := () }
    basePlayer 2 rfl (by norm_num) (by norm_num)

/-- C4: for the walking variant, at `progress = 0` all four leg/arm swing
X-rotations are exactly `0`, and for every progress the written rightLeg
X-rotation is exactly the negation of the written leftLeg X-rotation
(`sin (t + π) = -sin t` with `t = progress * 8`, same multiplier). -/
theorem walking_swing_zero_and_leg_antiphase
    (a : PlayerAnimation WalkingState) (player : PlayerObject) (delta : ℝ) :
    (a.progress = 0 →
      (WalkingAnimation.animate a player delta).1.skin.leftLeg.rotation.x = 0 ∧
      (WalkingAnimation.animate a player delta).1.skin.rightLeg.rotation.x = 0 ∧
      (WalkingAnimation.animate a player delta).1.skin.leftArm.rotation.x = 0 ∧
      (WalkingAnimation.animate a player delta).1.skin.rightArm.rotation.x = 0) ∧
    (WalkingAnimation.animate a player delta).1.skin.rightLeg.rotation.x
      = -(WalkingAnimation.animate a player delta).1.skin.leftLeg.rotation.x := by
  unfold WalkingAnimation.animate
  simp only [Segment.withRotX]
  constructor
  · intro hp
    rw [hp]
    norm_num [Real.sin_add_pi]
  · rw [Real.sin_add_pi]
    ring

theorem walking_swing_zero_and_leg_antiphase_witness :
    ({ speed := 1, paused := false, progress := 0, internal := {} }
        : PlayerAnimation WalkingState).progress = 0 ∧
    ((WalkingAnimation.animate
        { speed := 1, paused := false, progress := 0, internal := {} }
        basePlayer 0).1.skin.leftLeg.rotation.x = 0 ∧
     (WalkingAnimation.animate
        { speed := 1, paused := false, progress := 0, internal := {} }
        basePlayer 0).1.skin.rightLeg.rotation.x = 0 ∧
     (WalkingAnimation.animate
        { speed := 1, paused := false, progress := 0, internal := {} }
        basePlayer 0).1.skin.leftArm.rotation.x = 0 ∧
     (WalkingAnimation.animate
        { speed := 1, paused := false, progress := 0, internal := {} }
        basePlayer 0).1.skin.rightArm.rotation.x = 0) ∧
    (WalkingAnimation.animate
        { speed := 1, paused := false, progress := 0, internal := {} }
        basePlayer 0).1.skin.rightLeg.rotation.x
      = -(WalkingAnimation.animate
          { speed := 1, paused := false, progress := 0, internal := {} }
          basePlayer 0).1.skin.leftLeg.rotation.x := by
  refine ⟨rfl, ?_, ?_⟩
  · exact (walking_swing_zero_and_leg_antiphase
      { speed := 1, paused := false, progress := 0, internal := {} } basePlayer 0).1 rfl
  · exact (walking_swing_zero_and_leg_antiphase
      { speed := 1, paused := false, progress := 0, internal := {} } basePlayer 0).2

/-- C5, counterexample: at `progress = 0` (the `t = 0` pose, since
`progress ≤ 0` forces `t = 0`) the flying hook writes the left wing's
`rotation.x` as `0.2617994` — not the claimed fully-furled value
`0.34906584` — because the interpolation factor `0.9 ^ 0 = 1` selects the
other endpoint of the lerp. -/
theorem flying_wing_at_zero_not_furled :
    (FlyingAnimation.animate
        { speed := 1, paused := false, progress := 0, internal := () }
        basePlayer 0).1.elytra.leftWing.rotation.x = 0.2617994 ∧
    (0.2617994 : ℝ) ≠ 0.34906584 := by
  constructor
  · unfold FlyingAnimation.animate Elytra.updateRightWing flyingStartProgress flyingT clamp
    norm_num [Segment.withRotX, Segment.withRotZ, Real.rpow_zero]
  · norm_num

/-- C5, amended: for every progress value the internally computed
`startProgress` lies in `[0,1]`; and for every `progress ≤ 0` every rotation
the flying hook writes equals its `t = 0` value: body pitch `0`, head
X-rotation `0`, both arm Z-rotations `0`, and the left elytra wing at the
`t = 0` endpoint of the interpolation, `rotation.x = 0.2617994` and
`rotation.z = 0.2617994` (not the asymptotic pair `0.34906584`, `π/2`). -/
theorem flying_startProgress_clamped_and_neg_progress_pose
    (a : PlayerAnimation Unit) (player : PlayerObject) (delta : ℝ)
    (h : a.progress ≤ 0) :
    (∀ p : ℝ, 0 ≤ flyingStartProgress p ∧ flyingStartProgress p ≤ 1) ∧
    (FlyingAnimation.animate a player delta).1.rotation.x = 0 ∧
    (FlyingAnimation.animate a player delta).1.skin.head.rotation.x = 0 ∧
    (FlyingAnimation.animate a player delta).1.skin.leftArm.rotation.z = 0 ∧
    (FlyingAnimation.animate a player delta).1.skin.rightArm.rotation.z = 0 ∧
    (FlyingAnimation.animate a player delta).1.elytra.leftWing.rotation.x = 0.2617994 ∧
    (FlyingAnimation.animate a player delta).1.elytra.leftWing.rotation.z = 0.2617994 := by
  have ht : flyingT a.progress = 0 := by
    unfold flyingT
    rw [if_neg (not_lt.mpr h)]
  have hsp : flyingStartProgress a.progress = 0 := by
    unfold flyingStartProgress clamp
    rw [ht]
    norm_num
  refine ⟨?_, ?_⟩
  · intro p
    unfold flyingStartProgress clamp
    split_ifs with h1 h2
    · exact ⟨le_refl 0, by norm_num⟩
    · exact ⟨by norm_num, le_refl 1⟩
    · constructor <;> linarith
  · unfold FlyingAnimation.animate Elytra.updateRightWing
    rw [ht, hsp]
    norm_num [Segment.withRotX, Segment.withRotZ, Real.rpow_zero]

theorem flying_startProgress_clamped_and_neg_progress_pose_witness :
    ({ speed := 1, paused := false, progress := 0, internal := () }
        : PlayerAnimation Unit).progress ≤ 0 ∧
    (FlyingAnimation.animate
        { speed := 1, paused := false, progress := 0, internal := () }
        basePlayer 0).1.rotation.x = 0 ∧
    (FlyingAnimation.animate
        { speed := 1, paused := false, progress := 0, internal := () }
        basePlayer 0).1.elytra.leftWing.rotation.z = 0.2617994 := by
  obtain ⟨-, h1, -, -, -, -, h6⟩ :=
    flying_startProgress_clamped_and_neg_progress_pose
      { speed := 1, paused := false, progress := 0, internal := () }
      basePlayer 0 (le_refl 0)
  exact ⟨le_refl 0, h1, h6⟩

/-- C6: the flying hook writes the head X-rotation as `π/4` minus the body
pitch it just wrote when `startProgress > 0.5`, and `0` otherwise (a step at
the `0.5` threshold); in particular at `progress = 0.5` (`t = 10`) it
computes `startProgress = 1`, body pitch `π/2` and head pitch `π/4 − π/2`. -/
theorem flying_head_step_and_scenario
    (a : PlayerAnimation Unit) (player : PlayerObject) (delta : ℝ) :
    ((FlyingAnimation.animate a player delta).1.skin.head.rotation.x
        = if flyingStartProgress a.progress > 0.5
          then Real.pi / 4 - (FlyingAnimation.animate a player delta).1.rotation.x
          else 0) ∧
    (a.progress = 0.5 →
      flyingStartProgress a.progress = 1 ∧
      (FlyingAnimation.animate a player delta).1.rotation.x = Real.pi / 2 ∧
      (FlyingAnimation.animate a player delta).1.skin.head.rotation.x
        = Real.pi / 4 - Real.pi / 2) := by
  have hsp : ∀ p : ℝ, p = 0.5 → flyingStartProgress p = 1 := by
    intro p hp
    rw [hp]
    unfold flyingStartProgress flyingT clamp
    norm_num
  constructor
  · unfold FlyingAnimation.animate Elytra.updateRightWing
    simp only [Segment.withRotX, Segment.withRotZ]
  · intro hp
    refine ⟨hsp a.progress hp, ?_, ?_⟩
    · unfold FlyingAnimation.animate
      rw [hsp a.progress hp]
      norm_num
    · unfold FlyingAnimation.animate Elytra.updateRightWing
      rw [hsp a.progress hp]
      norm_num [Segment.withRotX, Segment.withRotZ]

theorem flying_head_step_and_scenario_witness :
    ({ speed := 1, paused := false, progress := 0.5, internal := () }
        : PlayerAnimation Unit).progress = 0.5 ∧
    flyingStartProgress 0.5 = 1 ∧
    (FlyingAnimation.animate
        { speed := 1, paused := false, progress := 0.5, internal := () }
        basePlayer 0).1.rotation.x = Real.pi / 2 ∧
    (FlyingAnimation.animate
        { speed := 1, paused := false, progress := 0.5, internal := () }
        basePlayer 0).1.skin.head.rotation.x = Real.pi / 4 - Real.pi / 2 := by
  obtain ⟨h1, h2, h3⟩ :=
    (flying_head_step_and_scenario
      { speed := 1, paused := false, progress := 0.5, internal := () }
      basePlayer 0).2 rfl
  exact ⟨rfl, h1, h2, h3⟩

/-- C7: in the draft waving variant the wave counter `w` increases by one
exactly when the internal cycle variable captured at the top of the call has
reached `2`, and never otherwise; and in the revised waving variant the
right arm's written Z-rotation is exactly `0` once the phase
`t = progress * 12` has reached the threshold `waveCount * 5 = 20`. -/
theorem waving_counter_and_arm_saturation
    (a : PlayerAnimation WavingState) (player : PlayerObject) (delta : ℝ)
    (b : PlayerAnimation Unit) (q : PlayerObject) (d : ℝ) :
    ((WavingAnimation.animate a player delta).2.w
        = if a.internal.t ≥ 2 then a.internal.w + 1 else a.internal.w) ∧
    (b.progress * 12 ≥ 4 * 5 →
      (WavingAnimationRev.animate b q d).1.skin.rightArm.rotation.z = 0) := by
  constructor
  · by_cases h2 : a.internal.t ≥ 2
    · simp [WavingAnimation.animate, h2]
    · simp [WavingAnimation.animate, h2]
  · intro hb
    have hb4 : ¬ b.progress * 12 < 4 * 4 := by
      push_neg
      linarith
    simp only [WavingAnimationRev.animate]
    rw [if_pos hb, if_neg hb4]
    simp [wavingRevApply, Segment.withRotZ]

theorem waving_counter_and_arm_saturation_witness :
    (2 : ℝ) * 12 ≥ 4 * 5 ∧
    (WavingAnimationRev.animate
        { speed := 1, paused := false, progress := 2, internal := () }
        basePlayer 0).1.skin.rightArm.rotation.z = 0 := by
  constructor
  · norm_num
  · exact (waving_counter_and_arm_saturation
      { speed := 1, paused := false, progress := 0, internal := {} } basePlayer 0
      { speed := 1, paused := false, progress := 2, internal := () }
      basePlayer 0).2 (by norm_num)

/-- C8: in the draft waving variant, once the wave counter has reached `5`,
the `if (player.backEquipment = 'cape')` conditional is an assignment whose
value is the truthy string `'cape'`: the hook always stores `'cape'` in
`backEquipment` and always sets `cape.visible = true`, while the
`elytra.visible = true` branch is unreachable (the flag is left untouched). -/
theorem waving_draft_backEquipment_assignment
    (a : PlayerAnimation WavingState) (player : PlayerObject) (delta : ℝ)
    (h : 5 ≤ a.internal.w) :
    (WavingAnimation.animate a player delta).1.backEquipment = "cape" ∧
    (WavingAnimation.animate a player delta).1.cape.visible = true ∧
    (WavingAnimation.animate a player delta).1.elytra.visible
      = player.elytra.visible := by
  have hw : ¬ a.internal.w < 5 := not_lt.mpr h
  unfold WavingAnimation.animate
  simp only [if_neg hw]
  split_ifs <;> exact ⟨rfl, rfl, rfl⟩

theorem waving_draft_backEquipment_assignment_witness :
    5 ≤ ({ speed := 1, paused := false, progress := 0, internal := { w := 5, t := 0 } }
        : PlayerAnimation WavingState).internal.w ∧
    (WavingAnimation.animate
        { speed := 1, paused := false, progress := 0, internal := { w := 5, t := 0 } }
        basePlayer 0).1.backEquipment = "cape" ∧
    (WavingAnimation.animate
        { speed := 1, paused := false, progress := 0, internal := { w := 5, t := 0 } }
        basePlayer 0).1.cape.visible = true ∧
    (WavingAnimation.animate
        { speed := 1, paused := false, progress := 0, internal := { w := 5, t := 0 } }
        basePlayer 0).1.elytra.visible = basePlayer.elytra.visible := by
  obtain ⟨h1, h2, h3⟩ :=
    waving_draft_backEquipment_assignment
      { speed := 1, paused := false, progress := 0, internal := { w := 5, t := 0 } }
      basePlayer 0 (le_refl 5)
  exact ⟨le_refl 5, h1, h2, h3⟩

end Skinview

end
